import Mathlib

/-!
Startup reporter of the microservice template (`main.go`)

The program is a straight-line `main`: four `fmt.Printf` calls that print a
build-information banner to standard output, followed by two `log.Println`
calls on Go's standard logger.

The embedding keeps the four package-level variables in the process state,
records every `Write` that reaches `os.Stdout` / `os.Stderr` as an event, and
models the two library routines the program calls:

* `fmt.Printf` for string operands and the directives `%s` and `%%`
  (`doPrintf`), including Go's `%!s(MISSING)`, `%!(NOVERB)` and `%!(EXTRA ...)`
  diagnostics;
* `log.Println` on the standard logger `log.std = New(os.Stderr, "", LstdFlags)`
  (`formatHeader`, `itoa`, `Logger.output`), which stamps every line with the
  local date and time obtained from `time.Now()`.

`main` itself is the sequence of writes it issues. The process around it
(`runProcess`) also consults the host for the result of every write: a write to
a standard stream that is a broken pipe ends the process by `SIGPIPE`, every
other write error is dropped by the program, and a `main` that returns gives
exit status 0.
-/

namespace GoMain

/-! ## Data model -/

/-- The four package-level string variables of `main.go` (lines 12-17). They are
ordinary Go variables; a release build overrides their initial values at link
time. -/
structure Globals where
  version : String
  commit : String
  date : String
  builtBy : String
deriving DecidableEq, Repr

/-- The initial values written in the source:
`version = "dev"`, `commit = "none"`, `date = "unknown"`, `builtBy = "unknown"`. -/
def defaultBuild : Globals :=
  { version := "dev", commit := "none", date := "unknown", builtBy := "unknown" }

/-- Names of the four metadata variables. -/
inductive Field where
  | version
  | commit
  | date
  | builtBy
deriving DecidableEq, Repr

/-- Value of a metadata variable. -/
def Globals.get (g : Globals) : Field → String
  | .version => g.version
  | .commit => g.commit
  | .date => g.date
  | .builtBy => g.builtBy

/-- The two standard streams the program writes to: `os.Stdout` (used by
`fmt.Printf`) and `os.Stderr` (the destination of the standard logger). -/
inductive Stream where
  | stdout
  | stderr
deriving DecidableEq, Repr

/-- Broken-down local wall-clock time, as `time.Time.Date()` and
`time.Time.Clock()` report it (all components are non-negative for `time.Now()`). -/
structure Time where
  year : Nat
  month : Nat
  day : Nat
  hour : Nat
  min : Nat
  sec : Nat
  nsec : Nat
deriving DecidableEq, Repr

/-- The environment of a run: `now k` is the value returned by the `k`-th call of
`time.Now()` (counting from 0). -/
structure Env where
  now : Nat → Time

/-- Process state: the package-level variables, the chronological sequence of
writes issued so far (stream and bytes of each `Write` call), and the number of
clock readings taken so far. -/
structure Proc where
  globals : Globals
  events : List (Stream × String)
  clock : Nat
deriving DecidableEq, Repr

/-- State at process start, after package initialisation with metadata `g`. -/
def start (g : Globals) : Proc :=
  { globals := g, events := [], clock := 0 }

/-- One `Write` call on a stream. The bytes are recorded as handed to the stream;
the program never inspects the result of a write. -/
def Proc.write (p : Proc) (s : Stream) (bytes : String) : Proc :=
  { p with events := p.events ++ [(s, bytes)] }

/-- All bytes written to stream `s`, in order. -/
def Proc.contents (p : Proc) (s : Stream) : String :=
  String.join ((p.events.filter fun e => e.1 = s).map Prod.snd)

/-- Contents of standard output. -/
def Proc.stdout (p : Proc) : String := p.contents .stdout

/-- Contents of the logging stream (standard error). -/
def Proc.stderr (p : Proc) : String := p.contents .stderr

/-! ## `fmt.Printf` -/

/-- The check that ends `fmt.(*pp).doPrintf`: operands left over when the format
is exhausted are reported as `%!(EXTRA string=a, string=b)`. -/
def extraOperands : List String → String
  | [] => ""
  | a :: as => "%!(EXTRA " ++ ", ".intercalate ((a :: as).map fun x => "string=" ++ x) ++ ")"

/-- The formatting loop of `fmt.(*pp).doPrintf` for string operands: ordinary
bytes are copied, `%%` prints a percent sign, `%s` prints the next operand
verbatim (or `%!s(MISSING)` when none is left), a lone trailing `%` prints
`%!(NOVERB)` and leaves the loop, and operands still unused at the end are
reported by `extraOperands`. Any other directive is outside the modelled
fragment (`none`). -/
def doPrintf : List Char → List String → Option String
  | [], args => some (extraOperands args)
  | c :: rest, args =>
      if c ≠ '%' then
        (doPrintf rest args).map fun out => String.singleton c ++ out
      else
        match rest, args with
        | [], args => some ("%!(NOVERB)" ++ extraOperands args)
        | '%' :: rest', args => (doPrintf rest' args).map fun out => "%" ++ out
        | 's' :: rest', a :: as => (doPrintf rest' as).map fun out => a ++ out
        | 's' :: rest', [] => (doPrintf rest' []).map fun out => "%!s(MISSING)" ++ out
        | _ :: _, _ => none

/-- The call `fmt.Printf(format, a...)`: format into a buffer, then hand the
buffer to `os.Stdout` in a single `Write`. The returned byte count and error are
discarded by `main`. -/
def Printf (format : String) (a : List String) (p : Proc) : Option Proc :=
  (doPrintf format.data a).map fun out => p.write .stdout out

/-! ## `log.Println` on the standard logger -/

/-- Flag bits of package `log`. -/
def Ldate : Nat := 1
/-- Flag bit: the time in the local time zone. -/
def Ltime : Nat := 2
/-- Flag bit: microsecond resolution. -/
def Lmicroseconds : Nat := 4
/-- Flag bit: move the prefix in front of the message. -/
def Lmsgprefix : Nat := 64
/-- Initial flags of the standard logger: `Ldate | Ltime`. -/
def LstdFlags : Nat := Ldate ||| Ltime

/-- Fixed-width decimal conversion of package `log`:
`for i >= 10 || wid > 1 { wid--; q := i / 10; b[bp] = byte('0' + i - q*10); bp--; i = q }`
followed by `b[bp] = byte('0' + i)`. The 20-byte scratch buffer of the original
is never exhausted for a 64-bit `i` and `wid <= 4`. -/
def itoa (i : Nat) (wid : Int) : String :=
  if i ≥ 10 ∨ wid > 1 then
    let q := i / 10
    itoa q (wid - 1) ++ String.singleton (Char.ofNat ('0'.toNat + i - q * 10))
  else
    String.singleton (Char.ofNat ('0'.toNat + i))
termination_by i + wid.toNat
decreasing_by
  simp_wf
  omega

/-- The header written by `log.formatHeader(buf, t, prefix, flag, file, line)`.
The `LUTC` conversion and the `file:line` part (`Lshortfile | Llongfile`) are
left out: the standard logger sets none of these flags. -/
def formatHeader (t : Time) (pfx : String) (flag : Nat) : String :=
  let buf := if flag &&& Lmsgprefix = 0 then pfx else ""
  let buf :=
    if flag &&& (Ldate ||| Ltime ||| Lmicroseconds) ≠ 0 then
      let buf :=
        if flag &&& Ldate ≠ 0 then
          buf ++ itoa t.year 4 ++ "/" ++ itoa t.month 2 ++ "/" ++ itoa t.day 2 ++ " "
        else buf
      if flag &&& (Ltime ||| Lmicroseconds) ≠ 0 then
        let buf := buf ++ itoa t.hour 2 ++ ":" ++ itoa t.min 2 ++ ":" ++ itoa t.sec 2
        let buf :=
          if flag &&& Lmicroseconds ≠ 0 then buf ++ "." ++ itoa (t.nsec / 1000) 6 else buf
        buf ++ " "
      else buf
    else buf
  if flag &&& Lmsgprefix ≠ 0 then buf ++ pfx else buf

/-- A `log.Logger`: its prefix and flags (the destination of the standard
logger is `os.Stderr`). -/
structure Logger where
  pfx : String
  flag : Nat
deriving DecidableEq, Repr

/-- The standard logger, `New(os.Stderr, "", LstdFlags)`. -/
def std : Logger := { pfx := "", flag := LstdFlags }

/-- The function `fmt.Sprintln` for string operands: operands separated by single spaces,
newline appended. -/
def Sprintln (v : List String) : String := " ".intercalate v ++ "\n"

/-- The method `(*Logger).output`: read the clock, build header and message in one buffer,
append a newline unless the buffer already ends in one, and write the buffer to
standard error in a single `Write`. -/
def Logger.output (l : Logger) (env : Env) (msg : String) (p : Proc) : Proc :=
  let now := env.now p.clock
  let buf := formatHeader now l.pfx l.flag ++ msg
  let buf := if buf.data.getLast? = some '\n' then buf else buf ++ "\n"
  { p with clock := p.clock + 1 }.write .stderr buf

/-- The call `log.Println(v...)`: `std.output` applied to `fmt.Appendln(b, v...)`.
The error of the underlying `Write` is dropped. -/
def Println (env : Env) (v : List String) (p : Proc) : Option Proc :=
  some (std.output env (Sprintln v) p)

/-! ## `main` -/

/-- The six statements of `main` (lines 20-29 of `main.go`), each a transition of
the process state. The metadata variables are read when their statement runs. -/
def mainBody (env : Env) : List (Proc → Option Proc) :=
  [ fun p => Printf "OpenCHAMI Microservice Template\n" [] p,
    fun p => Printf "Version: %s\n" [p.globals.version] p,
    fun p => Printf "Commit: %s\n" [p.globals.commit] p,
    fun p => Printf "Built: %s by %s\n" [p.globals.date, p.globals.builtBy] p,
    fun p => Println env ["Starting application..."] p,
    fun p => Println env ["Application started successfully"] p ]

/-- Run a statement sequence to completion. -/
def exec : List (Proc → Option Proc) → Proc → Option Proc
  | [], p => some p
  | s :: ss, p => (s p).bind (exec ss)

/-- The states a statement sequence passes through: the state it starts in and
the state after each statement. -/
def trace : List (Proc → Option Proc) → Proc → Option (List Proc)
  | [], p => some [p]
  | s :: ss, p => (s p).bind fun q => (trace ss q).map fun t => p :: t

/-- The function `main`. -/
def main (env : Env) (p : Proc) : Option Proc := exec (mainBody env) p

/-- Split a byte sequence at newline characters. Every newline ends a line; a
non-empty unterminated tail counts as a last line. -/
def splitLines : List Char → List (List Char)
  | [] => []
  | c :: cs =>
      if c = '\n' then [] :: splitLines cs
      else
        match splitLines cs with
        | [] => [[c]]
        | l :: ls => (c :: l) :: ls

/-- The lines of a stream's contents, without their newline terminators. -/
def lines (s : String) : List String := (splitLines s.data).map String.mk

/-- A string without any newline character. -/
def NoNewline (s : String) : Prop := '\n' ∉ s.data

instance (s : String) : Decidable (NoNewline s) := by
  unfold NoNewline; infer_instance

/-- The timestamp header of the standard logger at time `t`. -/
def stdHeader (t : Time) : String := formatHeader t std.pfx std.flag

/-- A run that reads the clock at 09:05:00 and 09:05:01 on 2 November 2025. -/
def envMorning : Env := { now := fun k => ⟨2025, 11, 2, 9, 5, k, 0⟩ }

/-- A run that reads the clock at 17:30:00 and 17:30:01 on 3 November 2025. -/
def envEvening : Env := { now := fun k => ⟨2025, 11, 3, 17, 30, k, 0⟩ }

/-- A run whose first two clock readings are those of `envMorning` and whose
later readings differ. -/
def envMorningOnly : Env :=
  { now := fun k => if k < 2 then ⟨2025, 11, 2, 9, 5, k, 0⟩ else ⟨1970, 1, 1, 0, 0, 0, 0⟩ }

/-- A release build that overrides all four values. -/
def fullRelease : Globals :=
  { version := "2.0.1", commit := "9f3c2ab", date := "2025-11-02T09:00:00Z",
    builtBy := "goreleaser" }

/-- A build whose injected version string carries a second line that looks like
a commit line. -/
def spoofedCommit : Globals :=
  { version := "dev\nCommit: evil", commit := "none", date := "unknown", builtBy := "unknown" }

/-- All four metadata values are free of newline characters. -/
def SingleLineValues (g : Globals) : Prop :=
  NoNewline g.version ∧ NoNewline g.commit ∧ NoNewline g.date ∧ NoNewline g.builtBy

instance (g : Globals) : Decidable (SingleLineValues g) := by
  unfold SingleLineValues; infer_instance

/-- A release build that overrides only the version. -/
def releaseBuild : Globals :=
  { version := "1.2.3", commit := "none", date := "unknown", builtBy := "unknown" }

/-- A build whose injected version string spans two lines. -/
def twoLineVersion : Globals :=
  { version := "1.0\nrc1", commit := "none", date := "unknown", builtBy := "unknown" }

/-- The title line of the banner. -/
def title : String := "OpenCHAMI Microservice Template"

/-- Line `i` of `ls` exists and contains the value `field`. -/
def FieldOnLine (ls : List String) (i : Nat) (field : String) : Prop :=
  ∃ l, ls[i]? = some l ∧ field.data <:+: l.data

/-- The layout "label, then the four fields, each field on its own line": the
first line is the label and the four values sit on four different later lines. -/
def EachFieldOwnLine (g : Globals) (out : String) : Prop :=
  (lines out)[0]? = some title ∧
    ∃ iv ic id ib : Nat,
      0 < iv ∧ 0 < ic ∧ 0 < id ∧ 0 < ib ∧
      iv ≠ ic ∧ iv ≠ id ∧ iv ≠ ib ∧ ic ≠ id ∧ ic ≠ ib ∧ id ≠ ib ∧
      FieldOnLine (lines out) iv g.version ∧ FieldOnLine (lines out) ic g.commit ∧
      FieldOnLine (lines out) id g.date ∧ FieldOnLine (lines out) ib g.builtBy

/-! ## Library lemmas -/

theorem Sprintln_single (m : String) : Sprintln [m] = m ++ "\n" := by
  rfl

theorem output_std (env : Env) (m : String) (p : Proc) :
    std.output env (m ++ "\n") p =
      { globals := p.globals,
        events := p.events ++ [(Stream.stderr, stdHeader (env.now p.clock) ++ m ++ "\n")],
        clock := p.clock + 1 } := by
  have h : (formatHeader (env.now p.clock) std.pfx std.flag ++ (m ++ "\n")).data.getLast?
      = some '\n' := by
    simp [String.data_append]
  simp only [Logger.output, h, if_true, Proc.write, stdHeader, String.append_assoc]

theorem Printf_title (p : Proc) :
    Printf "OpenCHAMI Microservice Template\n" [] p =
      some (p.write .stdout "OpenCHAMI Microservice Template\n") := by
  rfl

theorem Printf_version (v : String) (p : Proc) :
    Printf "Version: %s\n" [v] p = some (p.write .stdout ("Version: " ++ v ++ "\n")) := by
  rfl

theorem Printf_commit (c : String) (p : Proc) :
    Printf "Commit: %s\n" [c] p = some (p.write .stdout ("Commit: " ++ c ++ "\n")) := by
  rfl

theorem Printf_built (d b : String) (p : Proc) :
    Printf "Built: %s by %s\n" [d, b] p =
      some (p.write .stdout ("Built: " ++ d ++ " by " ++ b ++ "\n")) := by
  have h : Printf "Built: %s by %s\n" [d, b] p
      = some (p.write .stdout ("Built: " ++ (d ++ (" by " ++ (b ++ "\n"))))) := rfl
  rw [h, String.append_assoc, String.append_assoc, String.append_assoc]

theorem digit_ne_newline (n : Nat) (h : n < 10) : Char.ofNat ('0'.toNat + n) ≠ '\n' := by
  interval_cases n <;> decide

theorem itoa_no_newline (i : Nat) (wid : Int) : '\n' ∉ (itoa i wid).data := by
  induction i, wid using itoa.induct with
  | case1 i wid h q ih =>
    rw [itoa, if_pos h]
    have hd : '0'.toNat + i - i / 10 * 10 = '0'.toNat + i % 10 := by
      have : '0'.toNat = 48 := rfl
      omega
    simp only [String.data_append, List.mem_append, not_or, hd]
    refine ⟨ih, ?_⟩
    have := digit_ne_newline (i % 10) (Nat.mod_lt _ (by decide))
    simpa [String.singleton] using this.symm
  | case2 i wid h =>
    rw [itoa, if_neg h]
    have hi : i < 10 := by omega
    have := digit_ne_newline i hi
    simpa [String.singleton] using this.symm

theorem stdHeader_eq (t : Time) :
    stdHeader t = itoa t.year 4 ++ "/" ++ itoa t.month 2 ++ "/" ++ itoa t.day 2 ++ " " ++
      itoa t.hour 2 ++ ":" ++ itoa t.min 2 ++ ":" ++ itoa t.sec 2 ++ " " := by
  have h : stdHeader t =
      "" ++ itoa t.year 4 ++ "/" ++ itoa t.month 2 ++ "/" ++ itoa t.day 2 ++ " " ++
        itoa t.hour 2 ++ ":" ++ itoa t.min 2 ++ ":" ++ itoa t.sec 2 ++ " " := by
    rfl
  rw [h, String.empty_append]

theorem stdHeader_no_newline (t : Time) : '\n' ∉ (stdHeader t).data := by
  simp [stdHeader_eq, String.data_append, itoa_no_newline]

/-! ## Lemmas on lines -/

theorem splitLines_line (l rest : List Char) (h : '\n' ∉ l) :
    splitLines (l ++ '\n' :: rest) = l :: splitLines rest := by
  induction l with
  | nil => simp [splitLines]
  | cons c cs ih =>
    have hc : c ≠ '\n' := fun e => h (by simp [e])
    have hcs : '\n' ∉ cs := fun e => h (by simp [e])
    simp [splitLines, hc, ih hcs]

theorem splitLines_no_newline (cs : List Char) : ∀ l ∈ splitLines cs, '\n' ∉ l := by
  induction cs with
  | nil => simp [splitLines]
  | cons c cs ih =>
    intro l hl
    by_cases hc : c = '\n'
    · simp only [splitLines, hc, if_true, List.mem_cons] at hl
      rcases hl with rfl | hl
      · simp
      · exact ih l hl
    · simp only [splitLines, hc, if_false] at hl
      cases hs : splitLines cs with
      | nil =>
        rw [hs] at hl
        simp at hl
        subst hl
        simpa using Ne.symm hc
      | cons l0 ls =>
        rw [hs] at hl ih
        simp only [List.mem_cons] at hl
        rcases hl with rfl | hl
        · have := ih l0 (by simp)
          simp [this, Ne.symm hc]
        · exact ih l (by simp [hl])

theorem lines_cons (a rest : String) (h : NoNewline a) :
    lines (a ++ "\n" ++ rest) = a :: lines rest := by
  unfold lines
  have : (a ++ "\n" ++ rest).data = a.data ++ '\n' :: rest.data := by
    simp [String.data_append]
  rw [this, splitLines_line _ _ h]
  simp

theorem lines_empty : lines "" = [] := by
  rfl

/-! ## The run of `main` -/

theorem main_eq (env : Env) (g : Globals) :
    main env (start g) = some
      { globals := g,
        events :=
          [ (Stream.stdout, "OpenCHAMI Microservice Template\n"),
            (Stream.stdout, "Version: " ++ g.version ++ "\n"),
            (Stream.stdout, "Commit: " ++ g.commit ++ "\n"),
            (Stream.stdout, "Built: " ++ g.date ++ " by " ++ g.builtBy ++ "\n"),
            (Stream.stderr, stdHeader (env.now 0) ++ "Starting application..." ++ "\n"),
            (Stream.stderr, stdHeader (env.now 1) ++ "Application started successfully" ++ "\n") ],
        clock := 2 } := by
  simp only [main, mainBody, exec, Println, Sprintln_single, output_std,
    Printf_title, Printf_version, Printf_commit, Printf_built,
    Option.some_bind, Proc.write, start, List.nil_append, List.cons_append]


theorem trace_eq (env : Env) (g : Globals) :
    trace (mainBody env) (start g) = some
      [ { globals := g, events := [], clock := 0 },
        { globals := g,
          events := [ (Stream.stdout, "OpenCHAMI Microservice Template\n") ],
          clock := 0 },
        { globals := g,
          events :=
            [ (Stream.stdout, "OpenCHAMI Microservice Template\n"),
              (Stream.stdout, "Version: " ++ g.version ++ "\n") ],
          clock := 0 },
        { globals := g,
          events :=
            [ (Stream.stdout, "OpenCHAMI Microservice Template\n"),
              (Stream.stdout, "Version: " ++ g.version ++ "\n"),
              (Stream.stdout, "Commit: " ++ g.commit ++ "\n") ],
          clock := 0 },
        { globals := g,
          events :=
            [ (Stream.stdout, "OpenCHAMI Microservice Template\n"),
              (Stream.stdout, "Version: " ++ g.version ++ "\n"),
              (Stream.stdout, "Commit: " ++ g.commit ++ "\n"),
              (Stream.stdout, "Built: " ++ g.date ++ " by " ++ g.builtBy ++ "\n") ],
          clock := 0 },
        { globals := g,
          events :=
            [ (Stream.stdout, "OpenCHAMI Microservice Template\n"),
              (Stream.stdout, "Version: " ++ g.version ++ "\n"),
              (Stream.stdout, "Commit: " ++ g.commit ++ "\n"),
              (Stream.stdout, "Built: " ++ g.date ++ " by " ++ g.builtBy ++ "\n"),
              (Stream.stderr, stdHeader (env.now 0) ++ "Starting application..." ++ "\n") ],
          clock := 1 },
        { globals := g,
          events :=
            [ (Stream.stdout, "OpenCHAMI Microservice Template\n"),
              (Stream.stdout, "Version: " ++ g.version ++ "\n"),
              (Stream.stdout, "Commit: " ++ g.commit ++ "\n"),
              (Stream.stdout, "Built: " ++ g.date ++ " by " ++ g.builtBy ++ "\n"),
              (Stream.stderr, stdHeader (env.now 0) ++ "Starting application..." ++ "\n"),
              (Stream.stderr,
                stdHeader (env.now 1) ++ "Application started successfully" ++ "\n") ],
          clock := 2 } ] := by
  simp only [mainBody, trace, Println, Sprintln_single, output_std,
    Printf_title, Printf_version, Printf_commit, Printf_built,
    Option.some_bind, Option.map_some', Proc.write, start, List.nil_append, List.cons_append]

theorem stdout_eq (env : Env) (g : Globals) :
    (main env (start g)).map Proc.stdout = some
      ("OpenCHAMI Microservice Template\nVersion: " ++ g.version ++ "\nCommit: " ++ g.commit ++
        "\nBuilt: " ++ g.date ++ " by " ++ g.builtBy ++ "\n") := by
  rw [main_eq]
  simp [Proc.stdout, Proc.contents, String.join, String.append_assoc]
  rfl

theorem stderr_eq (env : Env) (g : Globals) :
    (main env (start g)).map Proc.stderr = some
      (stdHeader (env.now 0) ++ "Starting application..." ++ "\n" ++
        (stdHeader (env.now 1) ++ "Application started successfully" ++ "\n" ++ "")) := by
  rw [main_eq]
  simp [Proc.stderr, Proc.contents, String.join, String.append_assoc]

theorem stdout_chain (v c d b : String) :
    "OpenCHAMI Microservice Template\nVersion: " ++ v ++ "\nCommit: " ++ c ++
        "\nBuilt: " ++ d ++ " by " ++ b ++ "\n" =
      title ++ "\n" ++ (("Version: " ++ v) ++ "\n" ++ (("Commit: " ++ c) ++ "\n" ++
        (("Built: " ++ d ++ " by " ++ b) ++ "\n" ++ ""))) := by
  apply String.ext
  simp [String.data_append, title]

theorem stdHeader_morning0 : stdHeader (envMorning.now 0) = "2025/11/02 09:05:00 " := by
  simp [stdHeader_eq, envMorning, itoa]
  rfl

theorem stdHeader_morning1 : stdHeader (envMorning.now 1) = "2025/11/02 09:05:01 " := by
  simp [stdHeader_eq, envMorning, itoa]
  rfl

theorem stdHeader_evening0 : stdHeader (envEvening.now 0) = "2025/11/03 17:30:00 " := by
  simp [stdHeader_eq, envEvening, itoa]
  rfl


theorem stdHeader_evening1 : stdHeader (envEvening.now 1) = "2025/11/03 17:30:01 " := by
  simp [stdHeader_eq, envEvening, itoa]
  rfl

theorem lines_stdout (env : Env) (g : Globals)
    (hv : NoNewline g.version) (hc : NoNewline g.commit)
    (hd : NoNewline g.date) (hb : NoNewline g.builtBy) :
    (main env (start g)).map (fun p => lines p.stdout) = some
      [ title, "Version: " ++ g.version, "Commit: " ++ g.commit,
        "Built: " ++ g.date ++ " by " ++ g.builtBy ] := by
  have h := stdout_eq env g
  rw [main_eq] at h ⊢
  simp only [Option.map_some', Option.some.injEq] at h ⊢
  have h0 : NoNewline title := by decide
  have h1 : NoNewline ("Version: " ++ g.version) := by
    simpa [NoNewline, String.data_append] using hv
  have h2 : NoNewline ("Commit: " ++ g.commit) := by
    simpa [NoNewline, String.data_append] using hc
  have h3 : NoNewline ("Built: " ++ g.date ++ " by " ++ g.builtBy) := by
    simpa [NoNewline, String.data_append] using And.intro hd hb
  rw [h, stdout_chain, lines_cons _ _ h0, lines_cons _ _ h1, lines_cons _ _ h2,
    lines_cons _ _ h3, lines_empty]

theorem lines_stderr (env : Env) (g : Globals) :
    (main env (start g)).map (fun p => lines p.stderr) = some
      [ stdHeader (env.now 0) ++ "Starting application...",
        stdHeader (env.now 1) ++ "Application started successfully" ] := by
  have h := stderr_eq env g
  rw [main_eq] at h ⊢
  simp only [Option.map_some', Option.some.injEq] at h ⊢
  have h0 : NoNewline (stdHeader (env.now 0) ++ "Starting application...") := by
    simpa [NoNewline, String.data_append] using stdHeader_no_newline (env.now 0)
  have h1 : NoNewline (stdHeader (env.now 1) ++ "Application started successfully") := by
    simpa [NoNewline, String.data_append] using stdHeader_no_newline (env.now 1)
  rw [h, lines_cons _ _ h0, lines_cons _ _ h1, lines_empty]


/-! ## Claims -/

/-- C1: for the default build, `main` writes to standard output exactly the lines
"OpenCHAMI Microservice Template", "Version: dev", "Commit: none",
"Built: unknown by unknown", in that order, each terminated by a newline. -/
theorem main_default_stdout (env : Env) :
    (main env (start defaultBuild)).map Proc.stdout = some
      "OpenCHAMI Microservice Template\nVersion: dev\nCommit: none\nBuilt: unknown by unknown\n"
    ∧ (main env (start defaultBuild)).map (fun p => lines p.stdout) = some
      [ "OpenCHAMI Microservice Template", "Version: dev", "Commit: none",
        "Built: unknown by unknown" ] := by
  constructor
  · rw [stdout_eq]
    rfl
  · rw [lines_stdout env defaultBuild (by decide) (by decide) (by decide) (by decide)]
    rfl

/-- C10: for all injected strings `v`, `c`, `d`, `b` the standard output of
`main` is exactly
`"OpenCHAMI Microservice Template\nVersion: " ++ v ++ "\nCommit: " ++ c ++ "\nBuilt: " ++ d ++ " by " ++ b ++ "\n"`:
the values are inserted verbatim. -/
theorem main_stdout_verbatim (env : Env) (v c d b : String) :
    (main env (start { version := v, commit := c, date := d, builtBy := b })).map Proc.stdout =
      some ("OpenCHAMI Microservice Template\nVersion: " ++ v ++ "\nCommit: " ++ c ++
        "\nBuilt: " ++ d ++ " by " ++ b ++ "\n") :=
  stdout_eq env { version := v, commit := c, date := d, builtBy := b }

/-- C8: the output events of `main` are, in order, the four banner writes to
standard output, the "Starting application..." log write and the
"Application started successfully" log write; every statement adds exactly one
event and nothing follows the second log write. -/
theorem main_events_sequential (env : Env) (g : Globals) :
    (main env (start g)).map Proc.events = some
      [ (Stream.stdout, "OpenCHAMI Microservice Template\n"),
        (Stream.stdout, "Version: " ++ g.version ++ "\n"),
        (Stream.stdout, "Commit: " ++ g.commit ++ "\n"),
        (Stream.stdout, "Built: " ++ g.date ++ " by " ++ g.builtBy ++ "\n"),
        (Stream.stderr, stdHeader (env.now 0) ++ "Starting application..." ++ "\n"),
        (Stream.stderr, stdHeader (env.now 1) ++ "Application started successfully" ++ "\n") ]
    ∧ (trace (mainBody env) (start g)).map (fun t => t.map fun q => q.events.length) =
        some [0, 1, 2, 3, 4, 5, 6]
    ∧ (trace (mainBody env) (start g)).map List.getLast? = some (main env (start g)) := by
  simp [main_eq, trace_eq]

/-- C9: the four metadata variables are never modified: in every state `main`
passes through (the initial state and the state after each of its six
statements) and in the state it returns, they equal their values at process
start. -/
theorem globals_unchanged (env : Env) (g : Globals) :
    (trace (mainBody env) (start g)).map (fun t => t.map Proc.globals) =
      some (List.replicate 7 g)
    ∧ (main env (start g)).map Proc.globals = some g := by
  simp [main_eq, trace_eq, List.replicate]


/-- C7, as stated, fails: with the version `"1.0\nrc1"` injected, standard
output has five lines, not four. -/
theorem stdout_five_lines :
    (main envMorning (start twoLineVersion)).map (fun p => lines p.stdout) = some
      [ "OpenCHAMI Microservice Template", "Version: 1.0", "rc1", "Commit: none",
        "Built: unknown by unknown" ]
    ∧ (main envMorning (start twoLineVersion)).map (fun p => (lines p.stdout).length) ≠
        some 4 := by
  have h := stdout_eq envMorning twoLineVersion
  rw [main_eq] at h ⊢
  simp only [Option.map_some', Option.some.injEq] at h ⊢
  rw [h]
  constructor
  · rfl
  · decide

/-- C7 (amended): when no metadata value contains a newline character, the
standard output of `main` consists of exactly four lines, in the fixed order
title line, version line, commit line, combined date/builtBy line. -/
theorem stdout_four_lines (env : Env) (g : Globals)
    (hv : NoNewline g.version) (hc : NoNewline g.commit)
    (hd : NoNewline g.date) (hb : NoNewline g.builtBy) :
    (main env (start g)).map (fun p => lines p.stdout) = some
      [ "OpenCHAMI Microservice Template", "Version: " ++ g.version, "Commit: " ++ g.commit,
        "Built: " ++ g.date ++ " by " ++ g.builtBy ]
    ∧ (main env (start g)).map (fun p => (lines p.stdout).length) = some 4 := by
  have h := lines_stdout env g hv hc hd hb
  rw [main_eq] at h ⊢
  simp only [Option.map_some', Option.some.injEq] at h ⊢
  rw [h]
  exact ⟨rfl, rfl⟩

/-- Witness for C7 (amended): the release build `1.2.3`. -/
theorem stdout_four_lines_witness :
    NoNewline releaseBuild.version ∧ NoNewline releaseBuild.commit ∧
    NoNewline releaseBuild.date ∧ NoNewline releaseBuild.builtBy ∧
    (main envMorning (start releaseBuild)).map (fun p => lines p.stdout) = some
      [ "OpenCHAMI Microservice Template", "Version: " ++ "1.2.3", "Commit: " ++ "none",
        "Built: " ++ "unknown" ++ " by " ++ "unknown" ]
    ∧ (main envMorning (start releaseBuild)).map (fun p => (lines p.stdout).length) = some 4 :=
  ⟨by decide, by decide, by decide, by decide,
    stdout_four_lines envMorning releaseBuild (by decide) (by decide) (by decide) (by decide)⟩

/-- C2, as stated, fails: the two lines on the logging stream are not the bare
messages; each carries the date and time of the call in front of the message. -/
theorem stderr_lines_timestamped :
    (main envMorning (start defaultBuild)).map (fun p => lines p.stderr) = some
      [ "2025/11/02 09:05:00 Starting application...",
        "2025/11/02 09:05:01 Application started successfully" ]
    ∧ (main envMorning (start defaultBuild)).map (fun p => lines p.stderr) ≠ some
      [ "Starting application...", "Application started successfully" ] := by
  rw [lines_stderr, stdHeader_morning0, stdHeader_morning1]
  constructor
  · rfl
  · decide

/-- C2 (amended): for every metadata and every clock the logging stream receives
exactly two lines and nothing else, in fixed order: the standard logger's header
(date and time of the call, `YYYY/MM/DD HH:MM:SS ` for a four-digit year)
followed by "Starting application...", then the header followed by
"Application started successfully". -/
theorem stderr_two_lines (env : Env) (g : Globals) :
    (main env (start g)).map (fun p => lines p.stderr) = some
      [ stdHeader (env.now 0) ++ "Starting application...",
        stdHeader (env.now 1) ++ "Application started successfully" ]
    ∧ (main env (start g)).map Proc.stderr = some
      (stdHeader (env.now 0) ++ "Starting application...\n" ++
        stdHeader (env.now 1) ++ "Application started successfully\n")
    ∧ (∀ t : Time, stdHeader t =
        itoa t.year 4 ++ "/" ++ itoa t.month 2 ++ "/" ++ itoa t.day 2 ++ " " ++
          itoa t.hour 2 ++ ":" ++ itoa t.min 2 ++ ":" ++ itoa t.sec 2 ++ " ") := by
  refine ⟨lines_stderr env g, ?_, stdHeader_eq⟩
  rw [stderr_eq]
  congr 1
  apply String.ext
  simp [String.data_append]


/-- C6, as stated, fails. For the default build the banner has only three lines
after the label, so the four fields cannot each have a line of their own (date
and builtBy share the "Built:" line); and an injected value that contains a
newline, such as the version `"1.0\nrc1"`, lies on no single line at all. -/
theorem fields_not_each_on_own_line :
    (¬ ∃ p, main envMorning (start defaultBuild) = some p ∧
        EachFieldOwnLine defaultBuild p.stdout)
    ∧ (¬ ∃ p, main envMorning (start twoLineVersion) = some p ∧
        EachFieldOwnLine twoLineVersion p.stdout) := by
  constructor
  · rintro ⟨p, hp, -, iv, ic, id, ib, hv0, hc0, hd0, hb0, h1, h2, h3, h4, h5, h6,
      ⟨lv, hv, -⟩, ⟨lc, hc, -⟩, ⟨ld, hd, -⟩, ⟨lb, hb, -⟩⟩
    have hl : (lines p.stdout).length = 4 := by
      have h := lines_stdout envMorning defaultBuild
        (by decide) (by decide) (by decide) (by decide)
      rw [hp] at h
      simp only [Option.map_some', Option.some.injEq] at h
      rw [h]
      rfl
    have bv := (List.getElem?_eq_some.mp hv).1
    have bc := (List.getElem?_eq_some.mp hc).1
    have bd := (List.getElem?_eq_some.mp hd).1
    have bb := (List.getElem?_eq_some.mp hb).1
    omega
  · rintro ⟨p, -, -, iv, -, -, -, -, -, -, -, -, -, -, -, -, -, ⟨lv, hv, hin⟩, -⟩
    have hmem : lv ∈ lines p.stdout := List.getElem?_mem hv
    obtain ⟨cs, hcs, rfl⟩ := List.mem_map.mp hmem
    have hno := splitLines_no_newline _ cs hcs
    apply hno
    apply hin.subset
    decide

/-- C6 (amended): when no metadata value contains a newline character, the
banner on standard output consists of the label "OpenCHAMI Microservice Template"
on the first line followed by exactly three lines that carry the four fields:
the line "Version: " with the version and nothing else, the line "Commit: " with
the commit and nothing else, and the line "Built: " with the date, " by " and
builtBy, so that date and builtBy share the last line. -/
theorem banner_layout (env : Env) (g : Globals)
    (hv : NoNewline g.version) (hc : NoNewline g.commit)
    (hd : NoNewline g.date) (hb : NoNewline g.builtBy) :
    ∃ p, main env (start g) = some p ∧
      lines p.stdout =
        [ title, "Version: " ++ g.version, "Commit: " ++ g.commit,
          "Built: " ++ g.date ++ " by " ++ g.builtBy ] ∧
      (lines p.stdout).length = 4 ∧
      (lines p.stdout)[0]? = some title ∧
      FieldOnLine (lines p.stdout) 1 g.version ∧
      FieldOnLine (lines p.stdout) 2 g.commit ∧
      FieldOnLine (lines p.stdout) 3 g.date ∧
      FieldOnLine (lines p.stdout) 3 g.builtBy := by
  have h := lines_stdout env g hv hc hd hb
  rw [main_eq] at h
  simp only [Option.map_some', Option.some.injEq] at h
  refine ⟨_, main_eq env g, h, ?_⟩
  rw [h]
  refine ⟨rfl, rfl, ⟨_, rfl, ?_⟩, ⟨_, rfl, ?_⟩, ⟨_, rfl, ?_⟩, ⟨_, rfl, ?_⟩⟩
  · exact ⟨"Version: ".data, [], by simp [String.data_append]⟩
  · exact ⟨"Commit: ".data, [], by simp [String.data_append]⟩
  · exact ⟨"Built: ".data, " by ".data ++ g.builtBy.data, by simp [String.data_append]⟩
  · exact ⟨"Built: ".data ++ g.date.data ++ " by ".data, [], by simp [String.data_append]⟩

/-- Witness for C6 (amended): a release build with four different values. -/
theorem banner_layout_witness :
    NoNewline fullRelease.version ∧ NoNewline fullRelease.commit ∧
    NoNewline fullRelease.date ∧ NoNewline fullRelease.builtBy ∧
    fullRelease.date ≠ fullRelease.builtBy ∧
    ∃ p, main envMorning (start fullRelease) = some p ∧
      lines p.stdout =
        [ "OpenCHAMI Microservice Template", "Version: 2.0.1", "Commit: 9f3c2ab",
          "Built: 2025-11-02T09:00:00Z by goreleaser" ] := by
  obtain ⟨p, hp, hl, -⟩ :=
    banner_layout envMorning fullRelease (by decide) (by decide) (by decide) (by decide)
  exact ⟨by decide, by decide, by decide, by decide, by decide, p, hp, hl⟩

/-- C4, as stated, fails twice. Two runs of the same (default) build that read
different clocks differ in their first log line; and the default build and a
build that differs from it only in the version, `"dev\nCommit: evil"`, differ in
the third line of standard output, where the commit line was claimed to stay
the same. -/
theorem frame_fails_for_clock_and_newline :
    (main envMorning (start defaultBuild)).map (fun p => p.events[4]?) = some (some
        (Stream.stderr, "2025/11/02 09:05:00 Starting application...\n"))
    ∧ (main envEvening (start defaultBuild)).map (fun p => p.events[4]?) = some (some
        (Stream.stderr, "2025/11/03 17:30:00 Starting application...\n"))
    ∧ (main envMorning (start defaultBuild)).map (fun p => p.events[4]?) ≠
        (main envEvening (start defaultBuild)).map (fun p => p.events[4]?)
    ∧ (∀ f, f ≠ Field.version → defaultBuild.get f = spoofedCommit.get f)
    ∧ (main envMorning (start defaultBuild)).map (fun p => lines p.stdout) = some
        [ "OpenCHAMI Microservice Template", "Version: dev", "Commit: none",
          "Built: unknown by unknown" ]
    ∧ (main envMorning (start spoofedCommit)).map (fun p => lines p.stdout) = some
        [ "OpenCHAMI Microservice Template", "Version: dev", "Commit: evil", "Commit: none",
          "Built: unknown by unknown" ]
    ∧ (main envMorning (start defaultBuild)).map (fun p => (lines p.stdout)[2]?) ≠
        (main envMorning (start spoofedCommit)).map (fun p => (lines p.stdout)[2]?) := by
  have hm : (main envMorning (start defaultBuild)).map (fun p => p.events[4]?) = some (some
      (Stream.stderr, "2025/11/02 09:05:00 Starting application...\n")) := by
    rw [main_eq]
    simp only [Option.map_some', List.getElem?_cons_succ, List.getElem?_cons_zero,
      stdHeader_morning0]
    rfl
  have he : (main envEvening (start defaultBuild)).map (fun p => p.events[4]?) = some (some
      (Stream.stderr, "2025/11/03 17:30:00 Starting application...\n")) := by
    rw [main_eq]
    simp only [Option.map_some', List.getElem?_cons_succ, List.getElem?_cons_zero,
      stdHeader_evening0]
    rfl
  have hd := stdout_eq envMorning defaultBuild
  have hs := stdout_eq envMorning spoofedCommit
  rw [main_eq] at hd hs
  simp only [Option.map_some', Option.some.injEq] at hd hs
  refine ⟨hm, he, ?_, ?_, ?_, ?_, ?_⟩
  · rw [hm, he]
    decide
  · intro f hf
    cases f
    · exact absurd rfl hf
    · rfl
    · rfl
    · rfl
  · rw [main_eq]
    simp only [Option.map_some', Option.some.injEq]
    rw [hd]
    rfl
  · rw [main_eq]
    simp only [Option.map_some', Option.some.injEq]
    rw [hs]
    rfl
  · rw [main_eq, main_eq]
    simp only [Option.map_some']
    rw [hd, hs]
    decide

/-- C4 (amended): if two assignments of the metadata, neither containing a
newline character, differ only in a set `S` of fields, then both runs of `main`
print four lines on standard output, of which the title line is identical, the
"Version:" line is identical unless version is in `S`, the "Commit:" line is
identical unless commit is in `S`, and the "Built:" line is identical unless
date or builtBy is in `S`; both runs log two lines with the same two messages,
each behind the timestamp header of its own run, and a log line is identical in
the two runs whenever the two runs read the same clock value for it. -/
theorem injection_frame (env₁ env₂ : Env) (g₁ g₂ : Globals) (S : Field → Prop)
    (hS : ∀ f, ¬ S f → g₁.get f = g₂.get f)
    (h₁ : SingleLineValues g₁) (h₂ : SingleLineValues g₂) :
    ∃ p₁ p₂, main env₁ (start g₁) = some p₁ ∧ main env₂ (start g₂) = some p₂ ∧
      lines p₁.stdout =
        [ title, "Version: " ++ g₁.version, "Commit: " ++ g₁.commit,
          "Built: " ++ g₁.date ++ " by " ++ g₁.builtBy ] ∧
      lines p₂.stdout =
        [ title, "Version: " ++ g₂.version, "Commit: " ++ g₂.commit,
          "Built: " ++ g₂.date ++ " by " ++ g₂.builtBy ] ∧
      (lines p₁.stdout)[0]? = (lines p₂.stdout)[0]? ∧
      (¬ S .version → (lines p₁.stdout)[1]? = (lines p₂.stdout)[1]?) ∧
      (¬ S .commit → (lines p₁.stdout)[2]? = (lines p₂.stdout)[2]?) ∧
      (¬ S .date → ¬ S .builtBy → (lines p₁.stdout)[3]? = (lines p₂.stdout)[3]?) ∧
      lines p₁.stderr =
        [ stdHeader (env₁.now 0) ++ "Starting application...",
          stdHeader (env₁.now 1) ++ "Application started successfully" ] ∧
      lines p₂.stderr =
        [ stdHeader (env₂.now 0) ++ "Starting application...",
          stdHeader (env₂.now 1) ++ "Application started successfully" ] ∧
      (env₁.now 0 = env₂.now 0 → (lines p₁.stderr)[0]? = (lines p₂.stderr)[0]?) ∧
      (env₁.now 1 = env₂.now 1 → (lines p₁.stderr)[1]? = (lines p₂.stderr)[1]?) := by
  have o₁ := lines_stdout env₁ g₁ h₁.1 h₁.2.1 h₁.2.2.1 h₁.2.2.2
  have o₂ := lines_stdout env₂ g₂ h₂.1 h₂.2.1 h₂.2.2.1 h₂.2.2.2
  have e₁ := lines_stderr env₁ g₁
  have e₂ := lines_stderr env₂ g₂
  rw [main_eq] at o₁ o₂ e₁ e₂
  simp only [Option.map_some', Option.some.injEq] at o₁ o₂ e₁ e₂
  refine ⟨_, _, main_eq env₁ g₁, main_eq env₂ g₂, o₁, o₂, ?_⟩
  rw [o₁, o₂, e₁, e₂]
  refine ⟨by simp, ?_, ?_, ?_, rfl, rfl, ?_, ?_⟩
  · intro h
    have e : g₁.version = g₂.version := hS .version h
    simp [e]
  · intro h
    have e : g₁.commit = g₂.commit := hS .commit h
    simp [e]
  · intro h h'
    have e : g₁.date = g₂.date := hS .date h
    have e' : g₁.builtBy = g₂.builtBy := hS .builtBy h'
    simp [e, e']
  · intro h
    simp [h]
  · intro h
    simp [h]

/-- Witness for C4 (amended): the default build against a build that overrides
only the version, run under clocks that agree on the two readings `main` takes. -/
theorem injection_frame_witness :
    (∀ f, ¬ (f = Field.version) → defaultBuild.get f = releaseBuild.get f) ∧
    SingleLineValues defaultBuild ∧ SingleLineValues releaseBuild ∧
    ∃ p₁ p₂, main envMorning (start defaultBuild) = some p₁ ∧
      main envMorningOnly (start releaseBuild) = some p₂ ∧
      (lines p₁.stdout)[0]? = (lines p₂.stdout)[0]? ∧
      (lines p₁.stdout)[2]? = (lines p₂.stdout)[2]? ∧
      (lines p₁.stdout)[3]? = (lines p₂.stdout)[3]? ∧
      (lines p₁.stderr)[0]? = (lines p₂.stderr)[0]? ∧
      (lines p₁.stderr)[1]? = (lines p₂.stderr)[1]? := by
  have hS : ∀ f, ¬ (f = Field.version) → defaultBuild.get f = releaseBuild.get f := by
    intro f hf
    cases f
    · exact absurd rfl hf
    · rfl
    · rfl
    · rfl
  obtain ⟨p₁, p₂, h₁, h₂, -, -, e0, -, e2, e3, -, -, e4, e5⟩ :=
    injection_frame envMorning envMorningOnly defaultBuild releaseBuild
      (fun f => f = Field.version) hS (by decide) (by decide)
  exact ⟨hS, by decide, by decide, p₁, p₂, h₁, h₂, e0, e2 (by decide),
    e3 (by decide) (by decide), e4 rfl, e5 rfl⟩

/-- C5, as stated, fails: two runs of the default build that read different
clocks write different bytes to the logging stream. -/
theorem stderr_depends_on_clock :
    (main envMorning (start defaultBuild)).map Proc.stderr = some
      "2025/11/02 09:05:00 Starting application...\n2025/11/02 09:05:01 Application started successfully\n"
    ∧ (main envEvening (start defaultBuild)).map Proc.stderr = some
      "2025/11/03 17:30:00 Starting application...\n2025/11/03 17:30:01 Application started successfully\n"
    ∧ (main envMorning (start defaultBuild)).map Proc.stderr ≠
      (main envEvening (start defaultBuild)).map Proc.stderr := by
  rw [stderr_eq, stderr_eq, stdHeader_morning0, stdHeader_morning1, stdHeader_evening0,
    stdHeader_evening1]
  refine ⟨rfl, rfl, ?_⟩
  decide

/-- C5 (amended): two runs of `main` with identical metadata both complete and
produce byte-identical standard output; their logging-stream contents are
byte-identical whenever the two runs obtain the same two clock readings (each
log line starts with the date and time of its call). -/
theorem output_deterministic (env₁ env₂ : Env) (g : Globals) :
    (main env₁ (start g)).isSome ∧ (main env₂ (start g)).isSome ∧
    (main env₁ (start g)).map Proc.stdout = (main env₂ (start g)).map Proc.stdout ∧
    (env₁.now 0 = env₂.now 0 → env₁.now 1 = env₂.now 1 →
      (main env₁ (start g)).map Proc.stderr = (main env₂ (start g)).map Proc.stderr) := by
  refine ⟨by simp [main_eq], by simp [main_eq], ?_, ?_⟩
  · rw [stdout_eq, stdout_eq]
  · intro h0 h1
    rw [stderr_eq, stderr_eq, h0, h1]

/-- Witness for C5 (amended): two runs whose clocks agree on the two readings
`main` takes and differ afterwards. -/
theorem output_deterministic_witness :
    envMorning.now 0 = envMorningOnly.now 0 ∧ envMorning.now 1 = envMorningOnly.now 1 ∧
    envMorning.now 2 ≠ envMorningOnly.now 2 ∧
    (main envMorning (start defaultBuild)).map Proc.stderr =
      (main envMorningOnly (start defaultBuild)).map Proc.stderr :=
  ⟨rfl, rfl, by decide,
    (output_deterministic envMorning envMorningOnly defaultBuild).2.2.2 rfl rfl⟩

end GoMain
